import Mathlib

/-!
Shallow embedding of the ETL pipeline in scrape.py (Toronto theft-data scraper):
the JSON value model, field reconciliation, month/date parsing, coordinate
validation, the client-side sort key, the pagination loop, the query-candidate
fallback chain, and the top-level per-category orchestration, together with
theorems settling the specified properties.

Python floats are modelled as exact rationals; machine-float rounding artefacts
are out of scope. Python exceptions are modelled by `Except`; `None` by a
dedicated `Value.null` constructor.
-/

set_option maxRecDepth 8000

/-- JSON scalar values occurring in ArcGIS attribute maps: a Python `int`,
`float`, `str` or `None`. Floats are modelled as exact rationals. -/
inductive Value : Type where
  | int (n : ℤ)
  | float (q : ℚ)
  | str (s : String)
  | null
deriving DecidableEq, Repr

/-- A JSON object (Python dict) with string keys, as used for `attributes` and
`geometry` of a raw ArcGIS feature. -/
abbrev JsonMap : Type := List (String × Value)

/-- A raw ArcGIS feature: an `attributes` mapping and a `geometry` mapping.
`feature.get("geometry", {})` makes a missing geometry behave exactly like an
empty mapping, so the geometry field is stored as a (possibly empty) map. -/
structure RawFeature : Type where
  attributes : JsonMap
  geometry : JsonMap
deriving DecidableEq, Repr

/-- Python `dict.get(k, default)`. -/
def dictGet (m : JsonMap) (k : String) (d : Value) : Value :=
  (List.lookup k m).getD d

/-- Python `dict.get(k)` (default `None`). -/
def dictGetN (m : JsonMap) (k : String) : Value :=
  dictGet m k .null

/-- Python truthiness for the JSON scalar values: `None`, `0`, `0.0` and the
empty string are falsy, everything else is truthy. -/
def truthy : Value → Bool
  | .int n => n != 0
  | .float q => q != 0
  | .str s => s != ""
  | .null => false

/-- Numeric view of a value: Python `isinstance(v, (int, float))` together with
the numeric content as a rational. -/
def numVal : Value → Option ℚ
  | .int n => some (n : ℚ)
  | .float q => some q
  | _ => none

/-- Truncation of a rational toward zero, Python `int(float)`. -/
def ratTrunc (q : ℚ) : ℤ :=
  Int.tdiv q.num (q.den : ℤ)

/-- Digits of a numeral string to a natural number; `none` unless the list is a
nonempty run of decimal digits. -/
def digitsToNat (l : List Char) : Option ℕ :=
  if l ≠ [] ∧ l.all Char.isDigit then
    some (l.foldl (fun a c => a * 10 + (c.toNat - 48)) 0)
  else
    none

/-- Python `str.strip()`: drop leading and trailing whitespace. Implemented by
structural recursion over the character list (the library `String.trim` is
defined by well-founded recursion on byte positions, which blocks kernel
evaluation; this version is its computable equivalent). -/
def strTrim (s : String) : String :=
  String.mk (((s.data.dropWhile Char.isWhitespace).reverse.dropWhile Char.isWhitespace).reverse)

/-- Python `str.lower()` (ASCII), by structural recursion over characters. -/
def strToLower (s : String) : String :=
  String.mk (s.data.map Char.toLower)

/-- Python `int(s)` on a string: strip surrounding whitespace, optional sign,
then a nonempty digit run. Returns `none` where Python raises `ValueError`.
(Numeric-literal refinements such as underscores are not modelled; no claim
exercises them.) -/
def parseIntStr (s : String) : Option ℤ :=
  match (strTrim s).data with
  | '-' :: ds => (digitsToNat ds).map (fun n => -(n : ℤ))
  | '+' :: ds => (digitsToNat ds).map (fun n => (n : ℤ))
  | ds => (digitsToNat ds).map (fun n => (n : ℤ))

/-- Value of a possibly empty digit run (used for the fractional part of a
float literal; Python accepts `"1."` and `".5"`). -/
def digitsVal (l : List Char) : ℕ :=
  l.foldl (fun a c => a * 10 + (c.toNat - 48)) 0

/-- Python `float(s)` on a string: optional sign, digits with an optional
single decimal point, at least one digit overall. Returns `none` where
Python raises `ValueError`. (Exponent, `inf`/`nan` forms are not modelled;
no claim exercises them.) -/
def parseFloatStr (s : String) : Option ℚ :=
  let core : List Char → Option ℚ := fun l =>
    match l.splitOn '.' with
    | [w] => (digitsToNat w).map (fun n => (n : ℚ))
    | [w, fr] =>
      if (w.all Char.isDigit ∧ fr.all Char.isDigit) ∧ (w ≠ [] ∨ fr ≠ []) then
        some ((digitsVal w : ℚ) + (digitsVal fr : ℚ) / ((10 : ℚ) ^ fr.length))
      else
        none
    | _ => none
  match (strTrim s).data with
  | '-' :: ds => (core ds).map (fun q => -q)
  | '+' :: ds => core ds
  | ds => core ds

/-- Python `int(v)` over the value model: identity on ints, truncation on
floats, literal parsing on strings (`ValueError` on failure), `TypeError` on
`None`. Errors are the `Except.error` cases. -/
def pyInt : Value → Except String ℤ
  | .int n => .ok n
  | .float q => .ok (ratTrunc q)
  | .str s =>
    match parseIntStr s with
    | some n => .ok n
    | none => .error "ValueError"
  | .null => .error "TypeError"

/-- Python `float(v)` over the value model (`None` raises `TypeError`). -/
def pyFloat : Value → Except String ℚ
  | .int n => .ok (n : ℚ)
  | .float q => .ok q
  | .str s =>
    match parseFloatStr s with
    | some q => .ok q
    | none => .error "ValueError"
  | .null => .error "TypeError"

/-- Python `str(v)` for the value model. Floats are rendered by the `Rat`
representation (an embedding simplification: no claim inspects the rendering
of a numeric value as a string beyond integers). -/
def pyStr : Value → String
  | .str s => s
  | .int n => toString n
  | .float q => toString q
  | .null => "None"

/-- FIELD_MAP["id_fields"]. -/
def id_fields : List String := ["EVENT_UNIQUE_ID", "OBJECTID"]

/-- FIELD_MAP["date_field"]. -/
def date_field : List String := ["OCC_DATE", "REPORT_DATE"]

/-- FIELD_MAP["year_field"]. -/
def year_field : List String := ["OCC_YEAR"]

/-- FIELD_MAP["month_field"]. -/
def month_field : List String := ["OCC_MONTH"]

/-- FIELD_MAP["day_field"]. -/
def day_field : List String := ["OCC_DAY"]

/-- FIELD_MAP["hour_field"]. -/
def hour_field : List String := ["OCC_HOUR"]

/-- FIELD_MAP["neighbourhood_fields"]. -/
def neighbourhood_fields : List String :=
  ["NEIGHBOURHOOD_158", "NEIGHBOURHOOD_140", "HOOD_158", "NEIGHBOURHOOD"]

/-- FIELD_MAP["premise_fields"]. -/
def premise_fields : List String := ["PREMISES_TYPE", "PREMISE_TYPE"]

/-- FIELD_MAP["lat_fields"]. -/
def lat_fields : List String := ["LAT_WGS84", "Y"]

/-- FIELD_MAP["lng_fields"]. -/
def lng_fields : List String := ["LONG_WGS84", "X"]

/-- FIELD_MAP["status_fields"]. -/
def status_fields : List String := ["STATUS"]

/-- MONTH_NAME_TO_NUM. -/
def MONTH_NAME_TO_NUM : List (String × ℤ) :=
  [("January", 1), ("February", 2), ("March", 3), ("April", 4),
   ("May", 5), ("June", 6), ("July", 7), ("August", 8),
   ("September", 9), ("October", 10), ("November", 11), ("December", 12)]

/-- PAGE_SIZE. -/
def PAGE_SIZE : ℕ := 2000

/-- TIME_WINDOW_MONTHS. -/
def TIME_WINDOW_MONTHS : ℕ := 6

/-- The epoch-plausibility threshold `1_000_000_000` used both by the sort key
and by the date parser to distinguish millisecond epochs from sentinels. -/
def EPOCH_THRESHOLD : ℚ := 1000000000

/-- Helper `_first_of(attrs, field_names, default)`: the first value among the
candidate keys that is not `None`, else the default. -/
def first_of (attrs : JsonMap) : List String → Value → Value
  | [], d => d
  | k :: rest, d =>
    match dictGetN attrs k with
    | .null => first_of attrs rest d
    | v => v

/-- Function `parse_month`: numbers truncate to an integer, strings go through
the month-name table with default 1, anything else is 1. -/
def parse_month : Value → ℤ
  | .int n => n
  | .float q => ratTrunc q
  | .str s => (List.lookup s MONTH_NAME_TO_NUM).getD 1
  | .null => 1

/-- Zero-padded decimal rendering of a natural number to width `w`. -/
def padNat (w : ℕ) (n : ℕ) : String :=
  let s := toString n
  String.mk (List.replicate (w - s.length) '0') ++ s

/-- Zero-padded decimal rendering of an integer, Python `f"{n:0wd}"`
(the sign occupies one column of the width). -/
def padInt (w : ℕ) (n : ℤ) : String :=
  if n < 0 then "-" ++ padNat (w - 1) (-n).toNat else padNat w n.toNat

/-- Format `f"{y:04d}-{m:02d}-{d:02d}"`. -/
def fmtYMD (y m d : ℤ) : String :=
  padInt 4 y ++ "-" ++ padInt 2 m ++ "-" ++ padInt 2 d

/-- Proleptic Gregorian civil date from a count of days since 1970-01-01
(the standard era-based algorithm), yielding `(year, month, day)`. This is the
date part of Python `datetime.utcfromtimestamp`. -/
def civilFromDays (z0 : ℤ) : ℤ × ℤ × ℤ :=
  let z := z0 + 719468
  let era := Int.fdiv z 146097
  let doe := z - era * 146097
  let yoe := (doe - doe / 1460 + doe / 36524 - doe / 146096) / 365
  let y := yoe + era * 400
  let doy := doe - (365 * yoe + yoe / 4 - yoe / 100)
  let mp := (5 * doy + 2) / 153
  let d := doy - (153 * mp + 2) / 5 + 1
  let m := mp + (if mp < 10 then 3 else -9)
  (y + (if m ≤ 2 then 1 else 0), m, d)

/-- Python `datetime.utcfromtimestamp(ms / 1000.0).strftime("%Y-%m-%d")`:
milliseconds since the Unix epoch to a `YYYY-MM-DD` string. Modelled as the
total proleptic conversion; the platform range errors of `utcfromtimestamp`
beyond year 9999 are out of scope (no claim exercises them). -/
def epochMsToDateStr (ms : ℚ) : String :=
  let days : ℤ := ⌊ms / 1000 / 86400⌋
  let ymd := civilFromDays days
  fmtYMD ymd.1 ymd.2.1 ymd.2.2

/-- Function `parse_date_string(raw_date, year, month, day)` with the
wall-clock year `datetime.utcnow().year` made an explicit `nowYear` argument.
The fallback chain: plausible millisecond epoch, ISO-prefixed string of length
at least 10, synthesis from components, and finally the literal
`f"{utcnow().year}-01-01"`. -/
def parse_date_string (nowYear : ℤ) (raw_date : Value) (year : Value) (month : ℤ)
    (day : Value) : String :=
  let fromComponents :=
    match pyInt year, pyInt day with
    | .ok y, .ok d => fmtYMD y month d
    | _, _ => toString nowYear ++ "-01-01"
  match raw_date with
  | .int n => if EPOCH_THRESHOLD < (n : ℚ) then epochMsToDateStr (n : ℚ) else fromComponents
  | .float q => if EPOCH_THRESHOLD < q then epochMsToDateStr q else fromComponents
  | .str s => if 10 ≤ s.length then s.take 10 else fromComponents
  | .null => fromComponents

/-- Round-half-even to an integer, the rounding mode of Python `round`. -/
def roundHalfEven (x : ℚ) : ℤ :=
  let f := ⌊x⌋
  let r := x - (f : ℚ)
  if r < 1 / 2 then f
  else if 1 / 2 < r then f + 1
  else if f % 2 = 0 then f else f + 1

/-- Python `round(x, 6)`: round to six decimal places (half to even). -/
def round6 (x : ℚ) : ℚ :=
  ((roundHalfEven (x * 1000000) : ℚ)) / 1000000

/-- The clean output record built by the Transform phase (one JSON object in
the output array). -/
structure CleanRecord : Type where
  id : String
  type : String
  date : String
  year : ℤ
  month : ℤ
  day : ℤ
  hour : ℤ
  neighbourhood : String
  premiseType : String
  lat : ℚ
  lng : ℚ
  status : String
deriving DecidableEq, Repr

/-- Coordinate resolution of `process_features`: prefer `geometry.y`/`geometry.x`,
fall back to the lat/lng attribute aliases when either is missing, coerce with
`float(...)` guarding `None` to `0.0`, and collapse any coercion error to
`(0.0, 0.0)` (the single `try` covers both coordinates). -/
def resolveCoords (f : RawFeature) : ℚ × ℚ :=
  let lat0 := dictGetN f.geometry "y"
  let lng0 := dictGetN f.geometry "x"
  let lat1 := if lat0 = .null ∨ lng0 = .null then first_of f.attributes lat_fields .null else lat0
  let lng1 := if lat0 = .null ∨ lng0 = .null then first_of f.attributes lng_fields .null else lng0
  match (if lat1 = .null then .ok 0 else pyFloat lat1),
        (if lng1 = .null then .ok 0 else pyFloat lng1) with
  | .ok a, .ok b => (a, b)
  | _, _ => (0, 0)

/-- The bounding-box test of `process_features`: roughly within Ontario. -/
def inBox (lat lng : ℚ) : Prop :=
  41 ≤ lat ∧ lat ≤ 57 ∧ -95 ≤ lng ∧ lng ≤ -73

instance (lat lng : ℚ) : Decidable (inBox lat lng) := by
  unfold inBox
  infer_instance

/-- A feature whose resolved coordinates are discarded by the validation step:
exactly `(0, 0)`, or outside the Ontario bounding box. -/
def badCoords (f : RawFeature) : Bool :=
  let c := resolveCoords f
  decide ((c.1 = 0 ∧ c.2 = 0) ∨ ¬ inBox c.1 c.2)

/-- The `MCI_CATEGORY` attribute with the default `""` used by the auto-theft
category double check. -/
def mciOf (f : RawFeature) : Value :=
  dictGet f.attributes "MCI_CATEGORY" (.str "")

/-- Boolean test that the first character list occurs as a contiguous
subsequence of the second, Python `needle in haystack` on strings. -/
def listIsInfixOf : List Char → List Char → Bool
  | n, [] => n.isEmpty
  | n, h :: t => n.isPrefixOf (h :: t) || listIsInfixOf n t

/-- Python `"auto theft" in str(mci).lower()`. -/
def mciMatchesAutoTheft (v : Value) : Bool :=
  listIsInfixOf "auto theft".data ((strToLower (pyStr v)).data)

/-- A feature that the auto-category double check silently drops: coordinates
pass validation, `MCI_CATEGORY` is truthy, and its lowercased string form does
not contain `"auto theft"`. -/
def autoDropped (f : RawFeature) : Bool :=
  !(badCoords f) && truthy (mciOf f) && !(mciMatchesAutoTheft (mciOf f))

/-- The loop body of `process_features`, processing the remaining features
while carrying the accumulated clean records and the two discard counters.
An uncaught Python exception (an `int(...)` coercion failure on a truthy
non-numeric `year`/`day`/`hour`) is an `Except.error` aborting the whole
transform. -/
def processGo (nowYear : ℤ) (theft_type : String) :
    List RawFeature → List CleanRecord → ℕ → ℕ →
    Except String (List CleanRecord × ℕ × ℕ)
  | [], recs, dc, dother => .ok (recs, dc, dother)
  | f :: rest, recs, dc, dother =>
    let c := resolveCoords f
    if c.1 = 0 ∧ c.2 = 0 then
      processGo nowYear theft_type rest recs (dc + 1) dother
    else if ¬ inBox c.1 c.2 then
      processGo nowYear theft_type rest recs (dc + 1) dother
    else
      let attrs := f.attributes
      let record_id := first_of attrs id_fields (.str (toString recs.length))
      let raw_date := first_of attrs date_field (.str "")
      let year := first_of attrs year_field (.int nowYear)
      let raw_month := first_of attrs month_field (.int 1)
      let day := first_of attrs day_field (.int 1)
      let hour := first_of attrs hour_field (.int 12)
      let neighbourhood := first_of attrs neighbourhood_fields (.str "Unknown")
      let premise_type := first_of attrs premise_fields (.str "Unknown")
      let status := first_of attrs status_fields (.str "Unknown")
      let month := parse_month raw_month
      let date_str := parse_date_string nowYear raw_date year month day
      if theft_type = "auto" ∧ truthy (mciOf f) ∧ ¬ mciMatchesAutoTheft (mciOf f) then
        processGo nowYear theft_type rest recs dc (dother + 1)
      else
        match (if truthy year then pyInt year else .ok nowYear),
              (if truthy day then pyInt day else .ok 1),
              (if truthy hour then pyInt hour else .ok 0) with
        | .error e, _, _ => .error e
        | .ok _, .error e, _ => .error e
        | .ok _, .ok _, .error e => .error e
        | .ok y, .ok d, .ok h =>
          let rec1 : CleanRecord :=
            { id := theft_type ++ "-" ++ pyStr record_id
              type := theft_type
              date := date_str
              year := y
              month := month
              day := d
              hour := h
              neighbourhood := strTrim (pyStr neighbourhood)
              premiseType := strTrim (pyStr premise_type)
              lat := round6 c.1
              lng := round6 c.2
              status := strTrim (pyStr status) }
          processGo nowYear theft_type rest (recs ++ [rec1]) dc dother

/-- Function `process_features(raw_features, theft_type)`: transform the raw
features into clean records, returning the record list together with the
bad-coordinate counter and the wrong-category counter. -/
def process_features (nowYear : ℤ) (raw_features : List RawFeature)
    (theft_type : String) : Except String (List CleanRecord × ℕ × ℕ) :=
  processGo nowYear theft_type raw_features [] 0 0

/-- The client-side `sort_key(feature)` of `fetch_features`: a plausible
millisecond epoch (negated for descending order) when present, otherwise the
negated composite `year/month/day/hour` key. `none` marks the inputs on which
the Python expression raises (a truthy non-numeric value reaching the
arithmetic). -/
def sort_key (f : RawFeature) : Option ℚ :=
  let attrs := f.attributes
  let occ_date :=
    let a := dictGetN attrs "OCC_DATE"
    if truthy a then a else dictGetN attrs "REPORT_DATE"
  let composite : Option ℚ :=
    let yearV := let v := dictGet attrs "OCC_YEAR" (.int 0); if truthy v then v else .int 0
    let monthV : Value :=
      match dictGet attrs "OCC_MONTH" (.str "") with
      | .str s => .int ((List.lookup s MONTH_NAME_TO_NUM).getD 0)
      | v => v
    let dayV := let v := dictGet attrs "OCC_DAY" (.int 0); if truthy v then v else .int 0
    let hourV := let v := dictGet attrs "OCC_HOUR" (.int 0); if truthy v then v else .int 0
    match numVal yearV, numVal monthV, numVal dayV, numVal hourV with
    | some y, some m, some d, some h =>
      some (-(y * 100000000 + m * 1000000 + d * 10000 + h * 100))
    | _, _, _, _ => none
  match numVal occ_date with
  | some q => if EPOCH_THRESHOLD < q then some (-q) else composite
  | none => composite

/-- The sort key with the raising cases defaulted; only used on lists where no
key raises (see `sortOk`). -/
def keyD (f : RawFeature) : ℚ :=
  (sort_key f).getD 0

/-- The comparison `Python list.sort(key=sort_key)` sorts by: ascending key. -/
def sortLe (a b : RawFeature) : Bool :=
  decide (keyD a ≤ keyD b)

/-- The stable ascending sort by `sort_key`, Python `list.sort(key=sort_key)`
(CPython sorting is stable; `mergeSort` is its stable model). -/
def pySort (l : List RawFeature) : List RawFeature :=
  l.mergeSort sortLe

/-- All sort keys evaluate without raising. -/
def sortOk (l : List RawFeature) : Bool :=
  l.all fun f => (sort_key f).isSome

/-- The sorting step as run by `fetch_features`: raises (an error escaping the
category) when some key raises, otherwise the stable sort. -/
def sortFeatures (l : List RawFeature) : Except String (List RawFeature) :=
  if sortOk l then .ok (pySort l) else .error "TypeError"

/-- One page of an ArcGIS response: the `features` array and the
`exceededTransferLimit` flag. -/
structure Page : Type where
  features : List RawFeature
  exceededTransferLimit : Bool
deriving DecidableEq, Repr

/-- The state of the pagination loop: accumulated features, the
`resultOffset` counter, and whether the loop has exited. -/
structure FetchState : Type where
  acc : List RawFeature
  offset : ℕ
  finished : Bool
deriving DecidableEq, Repr

/-- One iteration of the pagination `while True` loop of `fetch_features`,
against a server giving a page for every offset: exit on an empty page, else
accumulate, advance the offset by `PAGE_SIZE`, and exit when the server did
not signal `exceededTransferLimit` and the page was short. -/
def fetchStep (server : ℕ → Page) (s : FetchState) : FetchState :=
  if s.finished then s
  else
    let page := server s.offset
    let count := page.features.length
    if count = 0 then
      { s with finished := true }
    else
      let s1 : FetchState :=
        { acc := s.acc ++ page.features, offset := s.offset + PAGE_SIZE, finished := false }
      if page.exceededTransferLimit = false ∧ count < PAGE_SIZE then
        { s1 with finished := true }
      else
        s1

/-- The pagination loop after `n` iterations, from the initial state
`all_features = []`, `offset = 0`. -/
def fetchSteps (server : ℕ → Page) : ℕ → FetchState
  | 0 => ⟨[], 0, false⟩
  | n + 1 => fetchStep server (fetchSteps server n)

/-- A featureless raw record used to build server responses. -/
def dummyFeature : RawFeature :=
  ⟨[], []⟩

/-- A runaway server: every page is full (`PAGE_SIZE` features) and claims
`exceededTransferLimit = true` forever. -/
def fullServer : ℕ → Page :=
  fun _ => ⟨List.replicate PAGE_SIZE dummyFeature, true⟩

/-- The WHERE-clause candidates of the fetch logic, as structured data (the
raw query strings add nothing the claims need). `matchAll` is the
unconditional filter the specification posits as a last resort; the source
never constructs it. -/
inductive WhereClause : Type where
  | dateFilter (mciAuto : Bool) (cutoffIso : String)
  | yearFilter (mciAuto : Bool) (cutoffYear : ℤ)
  | matchAll
deriving DecidableEq, Repr

/-- Function `build_date_where_clause(theft_type)`: the exact date-range
filter, with the extra `MCI_CATEGORY` conjunct for the auto category; the
wall-clock cutoff date is an explicit argument. -/
def build_date_where_clause (theft_type : String) (cutoffIso : String) : WhereClause :=
  .dateFilter (theft_type == "auto") cutoffIso

/-- Function `build_year_where_clause(theft_type)`: the coarser year filter
`OCC_YEAR >= current_year - 1`, with the `MCI_CATEGORY` conjunct for auto. -/
def build_year_where_clause (theft_type : String) (currentYear : ℤ) : WhereClause :=
  .yearFilter (theft_type == "auto") (currentYear - 1)

/-- The candidate-fallback control flow of `fetch_features`, with the whole
pagination loop for one clause abstracted as `pageFetch` (its internals are
studied by `fetchStep`/`fetchSteps`): try the date clause; on any error fall
back once to the year clause; an error there escapes. Returns the (sorted)
result together with the list of clauses attempted, in order. -/
def fetch_features_model (pageFetch : WhereClause → Except String (List RawFeature))
    (theft_type : String) (cutoffIso : String) (currentYear : ℤ) :
    Except String (List RawFeature) × List WhereClause :=
  let dateC := build_date_where_clause theft_type cutoffIso
  let yearC := build_year_where_clause theft_type currentYear
  match pageFetch dateC with
  | .ok fs => (sortFeatures fs, [dateC])
  | .error _ =>
    match pageFetch yearC with
    | .ok fs => (sortFeatures fs, [dateC, yearC])
    | .error e => (.error e, [dateC, yearC])

/-- The per-category client-side pipeline of `main`: sort the fetched
features, then transform them; the clean-record list is what `save_json`
writes for the category. -/
def transformPipeline (nowYear : ℤ) (features : List RawFeature)
    (theft_type : String) : Except String (List CleanRecord) :=
  match sortFeatures features with
  | .error e => .error e
  | .ok sorted =>
    match process_features nowYear sorted theft_type with
    | .error e => .error e
    | .ok res => .ok res.1

/-- The two dataset categories of `ENDPOINTS`, in iteration order. -/
def CATEGORIES : List String := ["auto", "bike"]

/-- The observable outcome of a full run of `main`: the files written (name
and content), the total record count, and the process exit code. -/
structure MainResult : Type where
  files : List (String × List CleanRecord)
  totalRecords : ℕ
  exitCode : ℕ
deriving DecidableEq, Repr

/-- One iteration of the category loop in `main`: on success write the clean
records and add to the total, on any error write an empty file and leave the
total unchanged. -/
def mainStep (pipeline : String → Except String (List CleanRecord))
    (acc : List (String × List CleanRecord) × ℕ) (t : String) :
    List (String × List CleanRecord) × ℕ :=
  match pipeline t with
  | .ok recs => (acc.1 ++ [(t ++ "_thefts.json", recs)], acc.2 + recs.length)
  | .error _ => (acc.1 ++ [(t ++ "_thefts.json", [])], acc.2)

/-- Function `main()`: run every category, then exit with status 1 exactly
when the total record count is zero (`sys.exit(1)`), else 0
(`sys.exit(main() or 0)`). -/
def runMain (pipeline : String → Except String (List CleanRecord)) : MainResult :=
  let fr := CATEGORIES.foldl (mainStep pipeline) ([], 0)
  ⟨fr.1, fr.2, if fr.2 = 0 then 1 else 0⟩

/-- The pipeline `main` runs for a category, over per-category raw inputs. -/
def mainPipeline (featuresOf : String → List RawFeature) (nowYear : ℤ)
    (t : String) : Except String (List CleanRecord) :=
  transformPipeline nowYear (featuresOf t) t

/-- Modelled from the spec: step (4) of the date-derivation fallback chain as
the specification words it, namely "fall back to the current processing date
with day fixed to the 1st" - the current year and current month with day 01.
The source has no such computation (it hard-codes January); this definition
exists only for comparison with `parse_date_string`. -/
def specCurrentDateFallback (nowYear nowMonth : ℤ) : String :=
  fmtYMD nowYear nowMonth 1

/-- The linear-combination month ordering of the specified Window Trimmer. -/
def monthScore (r : CleanRecord) : ℤ :=
  12 * r.year + r.month

/-- Modelled from the spec: the invariant the specified Window Trimmer (spec
section 4.5) would establish - every record lies within `TIME_WINDOW_MONTHS`
months of the freshest `(year, month)` present. The source applies no such
trim; this definition exists only to state the claim. -/
def specWindowInvariant (recs : List CleanRecord) : Prop :=
  ∀ r ∈ recs, ((recs.map monthScore).maximum.getD 0) - (TIME_WINDOW_MONTHS : ℤ) ≤ monthScore r

instance (recs : List CleanRecord) : Decidable (specWindowInvariant recs) := by
  unfold specWindowInvariant
  infer_instance

/-- A valid in-box feature dated September 2024 (the freshest record of the
window counterexample). -/
def freshFeature : RawFeature :=
  ⟨[("EVENT_UNIQUE_ID", .str "GO-A"), ("OCC_YEAR", .int 2024),
    ("OCC_MONTH", .str "September"), ("OCC_DAY", .int 15), ("OCC_HOUR", .int 10),
    ("LAT_WGS84", .float 43.65), ("LONG_WGS84", .float (-79.38))], []⟩

/-- A valid in-box feature dated January 2000, far outside any six-month
window anchored at September 2024. -/
def staleFeature : RawFeature :=
  ⟨[("EVENT_UNIQUE_ID", .str "GO-B"), ("OCC_YEAR", .int 2000),
    ("OCC_MONTH", .str "January"), ("OCC_DAY", .int 2), ("OCC_HOUR", .int 5),
    ("LAT_WGS84", .float 43.7), ("LONG_WGS84", .float (-79.4))], []⟩

/-- The window counterexample input. -/
def windowInput : List RawFeature :=
  [freshFeature, staleFeature]

/-- The records the pipeline writes for `windowInput` (category bike,
processing year 2025). -/
def windowOutput : List CleanRecord :=
  (transformPipeline 2025 windowInput "bike").toOption.getD []

/-- A valid in-box feature whose `OCC_MONTH` is the numeric value 13. -/
def monthThirteenFeature : RawFeature :=
  ⟨[("EVENT_UNIQUE_ID", .str "GO-13"), ("OCC_YEAR", .int 2024),
    ("OCC_MONTH", .int 13), ("OCC_DAY", .int 5), ("OCC_HOUR", .int 3),
    ("LAT_WGS84", .float 43.65), ("LONG_WGS84", .float (-79.38))], []⟩

/-- The month values `process_features` emits for `monthThirteenFeature`. -/
def monthThirteenOutput : List ℤ :=
  (((process_features 2025 [monthThirteenFeature] "bike").toOption.getD
    ([], 0, 0)).1).map CleanRecord.month

/-- A feature with valid coordinates whose `OCC_YEAR` is the truthy
non-numeric string "unknown", so `int(year)` raises `ValueError`. -/
def badYearFeature : RawFeature :=
  ⟨[("EVENT_UNIQUE_ID", .str "GO-7"), ("OCC_YEAR", .str "unknown"),
    ("LAT_WGS84", .float 43.65), ("LONG_WGS84", .float (-79.38))], []⟩

/-- A page fetch on which every candidate fails (e.g. HTTP 400 after all
retries). -/
def failingPageFetch : WhereClause → Except String (List RawFeature) :=
  fun _ => .error "ArcGIS error 400"

/-- A pipeline on which every category raises an unexpected error. -/
def failingPipeline : String → Except String (List CleanRecord) :=
  fun _ => .error "unexpected"

/-- The guarded coercion pattern `int(v) if v else default` never raises on a
falsy value and raises on a truthy non-coercible value; this records that `v`
is safe for it. -/
def intSafe (v : Value) : Bool :=
  !truthy v || (pyInt v).isOk

/-- All three guarded integer coercions in the record construction of
`process_features` (year, day, hour) are safe for the feature. -/
def featureIntSafe (nowYear : ℤ) (f : RawFeature) : Bool :=
  intSafe (first_of f.attributes year_field (.int nowYear)) &&
  intSafe (first_of f.attributes day_field (.int 1)) &&
  intSafe (first_of f.attributes hour_field (.int 12))

/-- A feature with no coordinate information at all: resolves to `(0, 0)`. -/
def zeroCoordFeature : RawFeature :=
  ⟨[("EVENT_UNIQUE_ID", .str "GO-Z")], []⟩

/-- A feature whose coordinates are far outside the Ontario box. -/
def outOfBoxFeature : RawFeature :=
  ⟨[("EVENT_UNIQUE_ID", .str "GO-O"),
    ("LAT_WGS84", .float 10.5), ("LONG_WGS84", .float 10.5)], []⟩

/-- Input list exercising both coordinate discards and one valid record. -/
def c1Input : List RawFeature :=
  [zeroCoordFeature, outOfBoxFeature, freshFeature]

/-- The transform output on `c1Input`. -/
def c1Out : List CleanRecord × ℕ × ℕ :=
  (process_features 2025 c1Input "bike").toOption.getD ([], 0, 0)

/-- A feature sharing its composite sort key with `tieFeatureB`. -/
def tieFeatureA : RawFeature :=
  ⟨[("EVENT_UNIQUE_ID", .str "GO-T1"), ("OCC_YEAR", .int 2024),
    ("OCC_MONTH", .str "May"), ("OCC_DAY", .int 1), ("OCC_HOUR", .int 0)], []⟩

/-- A feature sharing its composite sort key with `tieFeatureA`. -/
def tieFeatureB : RawFeature :=
  ⟨[("EVENT_UNIQUE_ID", .str "GO-T2"), ("OCC_YEAR", .int 2024),
    ("OCC_MONTH", .str "May"), ("OCC_DAY", .int 1), ("OCC_HOUR", .int 0)], []⟩

/-- A concrete list with a tied pair, for the sorting witness. -/
def c8List : List RawFeature :=
  [staleFeature, tieFeatureA, freshFeature, tieFeatureB]

/-- The shared sort key of the tied pair in `c8List`. -/
def tieKey : ℚ :=
  -202405010000

/-- A concrete already-sorted list (ascending keys). -/
def c8Sorted : List RawFeature :=
  [freshFeature, tieFeatureA, staleFeature]

/-- A server whose first page is already empty. -/
def emptyPageServer : ℕ → Page :=
  fun _ => ⟨[], false⟩

/-- A server returning one short page without `exceededTransferLimit`. -/
def shortPageServer : ℕ → Page :=
  fun _ => ⟨[dummyFeature], false⟩

/-- Per-category inputs that are all empty. -/
def emptyFeaturesOf : String → List RawFeature :=
  fun _ => []

/-- A feature with valid coordinates whose `MCI_CATEGORY` is a truthy value
not containing "auto theft". -/
def assaultFeature : RawFeature :=
  ⟨[("EVENT_UNIQUE_ID", .str "GO-M"), ("MCI_CATEGORY", .str "Assault"),
    ("OCC_YEAR", .int 2024), ("OCC_MONTH", .str "May"), ("OCC_DAY", .int 1),
    ("OCC_HOUR", .int 2), ("LAT_WGS84", .float 43.65),
    ("LONG_WGS84", .float (-79.38))], []⟩

/-- The transform output for `assaultFeature` under the bike category (the
MCI attribute is ignored there). -/
def bikeAssaultOut : List CleanRecord × ℕ × ℕ :=
  (process_features 2025 [assaultFeature] "bike").toOption.getD ([], 0, 0)

/-- Round-half-even never goes below an integer lower bound of its input. -/
theorem roundHalfEven_ge (n : ℤ) (x : ℚ) (h : (n : ℚ) ≤ x) : n ≤ roundHalfEven x := by
  simp only [roundHalfEven]
  have hf : n ≤ ⌊x⌋ := Int.le_floor.mpr h
  split
  · exact hf
  · split
    · omega
    · split <;> omega

/-- Round-half-even never exceeds an integer upper bound of its input. -/
theorem roundHalfEven_le (n : ℤ) (x : ℚ) (h : x ≤ (n : ℚ)) : roundHalfEven x ≤ n := by
  simp only [roundHalfEven]
  have hfn : ⌊x⌋ ≤ n := by
    have h1 : ⌊x⌋ ≤ ⌊(n : ℚ)⌋ := Int.floor_le_floor h
    simpa using h1
  split
  · exact hfn
  · have hr : (1 : ℚ) / 2 ≤ x - (⌊x⌋ : ℚ) := not_lt.mp (by assumption)
    have hlt : ⌊x⌋ < n := by
      by_contra hc
      push_neg at hc
      have hcq : (n : ℚ) ≤ (⌊x⌋ : ℚ) := by exact_mod_cast hc
      have hfl : (⌊x⌋ : ℚ) ≤ x := Int.floor_le x
      linarith
    split
    · omega
    · split <;> omega

/-- Rounding to six decimals preserves integer lower bounds. -/
theorem round6_ge (n : ℤ) (x : ℚ) (h : (n : ℚ) ≤ x) : (n : ℚ) ≤ round6 x := by
  simp only [round6]
  have h1 : ((n * 1000000 : ℤ) : ℚ) ≤ x * 1000000 := by push_cast; linarith
  have h2 : ((n * 1000000 : ℤ) : ℚ) ≤ (roundHalfEven (x * 1000000) : ℚ) := by
    exact_mod_cast roundHalfEven_ge _ _ h1
  rw [le_div_iff₀ (by norm_num : (0 : ℚ) < 1000000)]
  push_cast at h2 ⊢
  linarith

/-- Rounding to six decimals preserves integer upper bounds. -/
theorem round6_le (n : ℤ) (x : ℚ) (h : x ≤ (n : ℚ)) : round6 x ≤ (n : ℚ) := by
  simp only [round6]
  have h1 : x * 1000000 ≤ ((n * 1000000 : ℤ) : ℚ) := by push_cast; linarith
  have h2 : (roundHalfEven (x * 1000000) : ℚ) ≤ ((n * 1000000 : ℤ) : ℚ) := by
    exact_mod_cast roundHalfEven_le _ _ h1
  rw [div_le_iff₀ (by norm_num : (0 : ℚ) < 1000000)]
  push_cast at h2 ⊢
  linarith

/-- Rounding to six decimals keeps a point inside the Ontario box. -/
theorem inBox_round6 (a b : ℚ) (h : inBox a b) : inBox (round6 a) (round6 b) := by
  obtain ⟨h1, h2, h3, h4⟩ := h
  refine ⟨?_, ?_, ?_, ?_⟩
  · have := round6_ge 41 a (by exact_mod_cast h1)
    exact_mod_cast this
  · have := round6_le 57 a (by exact_mod_cast h2)
    exact_mod_cast this
  · have := round6_ge (-95) b (by exact_mod_cast h3)
    exact_mod_cast this
  · have := round6_le (-73) b (by exact_mod_cast h4)
    exact_mod_cast this

/-- Features passing both coordinate checks are not `badCoords`. -/
theorem badCoords_false_of_checks (f : RawFeature)
    (h1 : ¬((resolveCoords f).1 = 0 ∧ (resolveCoords f).2 = 0))
    (h2 : inBox (resolveCoords f).1 (resolveCoords f).2) : badCoords f = false := by
  simp only [badCoords]
  exact decide_eq_false (not_or.mpr ⟨h1, not_not_intro h2⟩)

/-- Structural account of the coordinate validation in the transform loop: the
bad-coordinate counter advances by exactly the number of `badCoords` features,
every emitted record (beyond the incoming accumulator) has rounded
coordinates inside the Ontario box and not both zero, and every feature lands
in exactly one bucket (emitted, bad-coordinate, or wrong-category). -/
theorem processGo_coord_spec (nowY : ℤ) (t : String) (l : List RawFeature) :
    ∀ (acc : List CleanRecord) (dc dother : ℕ) (recs : List CleanRecord)
      (dc' dother' : ℕ),
      processGo nowY t l acc dc dother = .ok (recs, dc', dother') →
      dc' = dc + l.countP badCoords ∧
      (∀ r ∈ recs, r ∈ acc ∨ (inBox r.lat r.lng ∧ ¬(r.lat = 0 ∧ r.lng = 0))) ∧
      recs.length + dc' + dother' = acc.length + l.length + dc + dother := by
  induction l with
  | nil =>
    intro acc dc dother recs dc' dother' h
    simp only [processGo, Except.ok.injEq, Prod.mk.injEq] at h
    obtain ⟨ha, hb, hc⟩ := h
    subst ha; subst hb; subst hc
    simp only [List.countP_nil, List.length_nil]
    exact ⟨rfl, fun r hr => Or.inl hr, by omega⟩
  | cons f rest ih =>
    intro acc dc dother recs dc' dother' h
    simp only [processGo] at h
    rw [List.countP_cons, List.length_cons]
    split at h
    · -- both coordinates exactly zero: discarded, counted
      rename_i hzero
      have hbad : badCoords f = true := decide_eq_true (Or.inl hzero)
      obtain ⟨ha, hb, hc⟩ := ih acc (dc + 1) dother recs dc' dother' h
      refine ⟨by rw [hbad]; simp; omega, hb, by omega⟩
    · split at h
      · -- outside the bounding box: discarded, counted
        rename_i hnz hout
        have hbad : badCoords f = true := decide_eq_true (Or.inr hout)
        obtain ⟨ha, hb, hc⟩ := ih acc (dc + 1) dother recs dc' dother' h
        refine ⟨by rw [hbad]; simp; omega, hb, by omega⟩
      · rename_i hnz hin
        have hbox : inBox (resolveCoords f).1 (resolveCoords f).2 :=
          Decidable.not_not.mp hin
        have hbad : badCoords f = false := badCoords_false_of_checks f hnz hbox
        split at h
        · -- auto-category MCI discard
          obtain ⟨ha, hb, hc⟩ := ih acc dc (dother + 1) recs dc' dother' h
          refine ⟨by rw [hbad]; simp; omega, hb, by omega⟩
        · -- record construction
          split at h
          · exact absurd h (by simp)
          · exact absurd h (by simp)
          · exact absurd h (by simp)
          · rename_i y d hh _
            obtain ⟨ha, hb, hc⟩ := ih _ dc dother recs dc' dother' h
            refine ⟨by rw [hbad]; simp; omega, ?_,
              by simp only [List.length_append, List.length_singleton] at hc; omega⟩
            intro r hr
            rcases hb r hr with hmem | hgood
            · rcases List.mem_append.mp hmem with hacc | hone
              · exact Or.inl hacc
              · right
                have hr1 : r.lat = round6 (resolveCoords f).1 ∧
                    r.lng = round6 (resolveCoords f).2 := by
                  rcases List.mem_singleton.mp hone with rfl
                  exact ⟨rfl, rfl⟩
                obtain ⟨hrl, hrg⟩ := hr1
                have hbox6 := inBox_round6 _ _ hbox
                rw [hrl, hrg]
                refine ⟨hbox6, ?_⟩
                rintro ⟨hz, -⟩
                have h41 : (41 : ℚ) ≤ round6 (resolveCoords f).1 := hbox6.1
                rw [hz] at h41
                norm_num at h41
            · exact Or.inr hgood

/-- C1: every feature whose resolved coordinates are exactly `(0, 0)` or lie
outside the box `41 ≤ lat ≤ 57`, `-95 ≤ lng ≤ -73` is discarded and counted by
the bad-coordinate counter (which counts exactly those features), and every
emitted record has coordinates inside the box and not both zero; the bucket
accounting shows discarded features are never emitted. -/
theorem C1_coordinate_validation (nowY : ℤ) (t : String) (l : List RawFeature)
    (recs : List CleanRecord) (dc dother : ℕ)
    (h : process_features nowY l t = .ok (recs, dc, dother)) :
    dc = l.countP badCoords ∧
    (∀ r ∈ recs, inBox r.lat r.lng ∧ ¬(r.lat = 0 ∧ r.lng = 0)) ∧
    recs.length + dc + dother = l.length := by
  obtain ⟨ha, hb, hc⟩ := processGo_coord_spec nowY t l [] 0 0 recs dc dother h
  refine ⟨by simpa using ha, ?_, by simpa using hc⟩
  intro r hr
  rcases hb r hr with hmem | hgood
  · exact absurd hmem (List.not_mem_nil r)
  · exact hgood

/-- Witness for C1 on a concrete three-feature input (no coordinates,
out-of-box coordinates, valid coordinates). -/
theorem C1_coordinate_validation_witness :
    process_features 2025 c1Input "bike" = .ok (c1Out.1, c1Out.2.1, c1Out.2.2) ∧
    (c1Out.2.1 = c1Input.countP badCoords ∧
     (∀ r ∈ c1Out.1, inBox r.lat r.lng ∧ ¬(r.lat = 0 ∧ r.lng = 0)) ∧
     c1Out.1.length + c1Out.2.1 + c1Out.2.2 = c1Input.length) :=
  ⟨by with_unfolding_all rfl,
   C1_coordinate_validation 2025 "bike" c1Input c1Out.1 c1Out.2.1 c1Out.2.2
     (by with_unfolding_all rfl)⟩

/-- A value safe for the guarded coercion yields an `ok` result. -/
theorem intSafe_ok (v : Value) (d : ℤ) (h : intSafe v = true) :
    ∃ y, (if truthy v then pyInt v else .ok d) = .ok y := by
  by_cases ht : truthy v = true
  · rw [if_pos ht]
    simp only [intSafe, ht, Bool.not_true, Bool.false_or] at h
    cases hp : pyInt v with
    | ok y => exact ⟨y, rfl⟩
    | error e => rw [hp] at h; simp [Except.isOk, Except.toBool] at h
  · exact ⟨d, if_neg ht⟩

/-- The transform loop cannot raise when every feature passes the
integer-coercion safety check on its year, day and hour values. -/
theorem processGo_total (nowY : ℤ) (t : String) (l : List RawFeature) :
    ∀ (acc : List CleanRecord) (dc dother : ℕ),
      (∀ f ∈ l, featureIntSafe nowY f = true) →
      ∃ res, processGo nowY t l acc dc dother = .ok res := by
  induction l with
  | nil => intro acc dc dother _; exact ⟨_, rfl⟩
  | cons f rest ih =>
    intro acc dc dother hsafe
    have hf := hsafe f (List.mem_cons_self f rest)
    have hrest : ∀ g ∈ rest, featureIntSafe nowY g = true :=
      fun g hg => hsafe g (List.mem_cons_of_mem f hg)
    simp only [processGo]
    split
    · exact ih _ _ _ hrest
    · split
      · exact ih _ _ _ hrest
      · split
        · exact ih _ _ _ hrest
        · simp only [featureIntSafe, Bool.and_eq_true] at hf
          obtain ⟨⟨hy, hd⟩, hh⟩ := hf
          obtain ⟨y, hy2⟩ := intSafe_ok _ nowY hy
          obtain ⟨d, hd2⟩ := intSafe_ok _ 1 hd
          obtain ⟨ho, hh2⟩ := intSafe_ok _ 0 hh
          rw [hy2, hd2, hh2]
          exact ih _ _ _ hrest

/-- C7 (amended): when every resolved year, day and hour value is either falsy
or integer-coercible, the transform completes without raising; a truthy
non-coercible value, by contrast, aborts it (see the counterexample). -/
theorem C7_guarded_coercions (nowY : ℤ) (l : List RawFeature) (t : String)
    (h : ∀ f ∈ l, featureIntSafe nowY f = true) :
    (process_features nowY l t).isOk = true := by
  obtain ⟨res, hres⟩ := processGo_total nowY t l [] 0 0 h
  simp [process_features, hres, Except.isOk, Except.toBool]

/-- Witness for C7 on a concrete safe feature. -/
theorem C7_guarded_coercions_witness :
    (∀ f ∈ [freshFeature], featureIntSafe 2025 f = true) ∧
    (process_features 2025 [freshFeature] "bike").isOk = true :=
  ⟨by with_unfolding_all decide,
   C7_guarded_coercions 2025 [freshFeature] "bike" (by with_unfolding_all decide)⟩

/-- Counterexample to C7 as stated: a feature with valid coordinates whose
`OCC_YEAR` is the truthy non-numeric string "unknown" makes the transform
raise `ValueError` instead of falling back to the default year. -/
theorem C7_counterexample :
    badCoords badYearFeature = false ∧
    process_features 2025 [badYearFeature] "bike" = .error "ValueError" :=
  ⟨by with_unfolding_all decide, by with_unfolding_all rfl⟩

/-- In the auto category, the wrong-category counter advances by exactly the
number of features dropped by the `MCI_CATEGORY` double check. -/
theorem processGo_auto_counter (nowY : ℤ) (l : List RawFeature) :
    ∀ (acc : List CleanRecord) (dc dother : ℕ) (recs : List CleanRecord)
      (dc' dother' : ℕ),
      processGo nowY "auto" l acc dc dother = .ok (recs, dc', dother') →
      dother' = dother + l.countP autoDropped := by
  induction l with
  | nil =>
    intro acc dc dother recs dc' dother' h
    simp only [processGo, Except.ok.injEq, Prod.mk.injEq] at h
    simp [h.2.2.symm]
  | cons f rest ih =>
    intro acc dc dother recs dc' dother' h
    simp only [processGo] at h
    rw [List.countP_cons]
    split at h
    · rename_i hzero
      have hbad : badCoords f = true := decide_eq_true (Or.inl hzero)
      have := ih _ _ _ _ _ _ h
      simp [autoDropped, hbad, this]
    · split at h
      · rename_i hnz hout
        have hbad : badCoords f = true := decide_eq_true (Or.inr hout)
        have := ih _ _ _ _ _ _ h
        simp [autoDropped, hbad, this]
      · rename_i hnz hin
        have hbad : badCoords f = false :=
          badCoords_false_of_checks f hnz (Decidable.not_not.mp hin)
        split at h
        · rename_i hc
          have hm : mciMatchesAutoTheft (mciOf f) = false := by
            simpa using hc.2.2
          have hdrop : autoDropped f = true := by
            simp [autoDropped, hbad, hc.2.1, hm]
          have := ih _ _ _ _ _ _ h
          have hone : (if autoDropped f = true then 1 else 0) = 1 := by simp [hdrop]
          rw [hone]
          omega
        · rename_i hnc
          have hdrop : autoDropped f = false := by
            cases ht : truthy (mciOf f) with
            | false => simp [autoDropped, ht]
            | true =>
              cases hm : mciMatchesAutoTheft (mciOf f) with
              | true => simp [autoDropped, hm]
              | false =>
                exact absurd ⟨by trivial, ht, by simp [hm]⟩ hnc
          split at h
          · exact absurd h (by simp)
          · exact absurd h (by simp)
          · exact absurd h (by simp)
          · have := ih _ _ _ _ _ _ h
            simp [hdrop, this]

/-- Outside the auto category the wrong-category counter never advances. -/
theorem processGo_nonauto_counter (nowY : ℤ) (t : String) (ht : t ≠ "auto")
    (l : List RawFeature) :
    ∀ (acc : List CleanRecord) (dc dother : ℕ) (recs : List CleanRecord)
      (dc' dother' : ℕ),
      processGo nowY t l acc dc dother = .ok (recs, dc', dother') →
      dother' = dother := by
  induction l with
  | nil =>
    intro acc dc dother recs dc' dother' h
    simp only [processGo, Except.ok.injEq, Prod.mk.injEq] at h
    exact h.2.2.symm
  | cons f rest ih =>
    intro acc dc dother recs dc' dother' h
    simp only [processGo] at h
    split at h
    · exact ih _ _ _ _ _ _ h
    · split at h
      · exact ih _ _ _ _ _ _ h
      · split at h
        · rename_i hc
          exact absurd hc.1 ht
        · split at h
          · exact absurd h (by simp)
          · exact absurd h (by simp)
          · exact absurd h (by simp)
          · exact ih _ _ _ _ _ _ h

/-- C10: in the auto category the wrong-category counter counts exactly the
features that pass coordinate validation and carry a truthy `MCI_CATEGORY`
not containing "auto theft" (case-insensitive); such a feature is silently
dropped; a feature with an absent or empty `MCI_CATEGORY` is retained and
emitted; and the bike category never drops a feature on this attribute. -/
theorem C10_mci_filter (nowY : ℤ) (l : List RawFeature) (f : RawFeature) :
    (∀ recs dc dother, process_features nowY l "auto" = .ok (recs, dc, dother) →
      dother = l.countP autoDropped) ∧
    (∀ recs dc dother, process_features nowY l "bike" = .ok (recs, dc, dother) →
      dother = 0) ∧
    (badCoords f = false → truthy (mciOf f) = true →
      mciMatchesAutoTheft (mciOf f) = false →
      process_features nowY [f] "auto" = .ok ([], 0, 1)) ∧
    (badCoords f = false → truthy (mciOf f) = false → featureIntSafe nowY f = true →
      ∃ r, process_features nowY [f] "auto" = .ok ([r], 0, 0)) := by
  have hnotbad : badCoords f = false →
      ¬((resolveCoords f).1 = 0 ∧ (resolveCoords f).2 = 0) ∧
      inBox (resolveCoords f).1 (resolveCoords f).2 := by
    intro hb
    simp only [badCoords] at hb
    have := of_decide_eq_false hb
    exact ⟨fun hz => this (Or.inl hz), Decidable.not_not.mp (fun hn => this (Or.inr hn))⟩
  refine ⟨?_, ?_, ?_, ?_⟩
  · intro recs dc dother h
    simpa using processGo_auto_counter nowY l [] 0 0 recs dc dother h
  · intro recs dc dother h
    exact processGo_nonauto_counter nowY "bike" (by decide) l [] 0 0 recs dc dother h
  · intro hb ht hm
    obtain ⟨h1, h2⟩ := hnotbad hb
    simp only [process_features, processGo]
    rw [if_neg h1, if_neg (not_not_intro h2)]
    split
    · rfl
    · rename_i hc
      exact absurd ⟨by trivial, ht, by simp [hm]⟩ hc
  · intro hb ht hsafe
    obtain ⟨h1, h2⟩ := hnotbad hb
    simp only [featureIntSafe, Bool.and_eq_true] at hsafe
    obtain ⟨⟨hy, hd⟩, hh⟩ := hsafe
    obtain ⟨y, hy2⟩ := intSafe_ok _ nowY hy
    obtain ⟨d, hd2⟩ := intSafe_ok _ 1 hd
    obtain ⟨ho, hh2⟩ := intSafe_ok _ 0 hh
    simp only [process_features, processGo]
    rw [if_neg h1, if_neg (not_not_intro h2)]
    split
    · rename_i hc
      exact absurd hc.2.1 (by simp [ht])
    · rw [hy2, hd2, hh2]
      exact ⟨_, rfl⟩

/-- Witness for C10 on concrete features: a truthy non-matching
`MCI_CATEGORY` is dropped and counted, a feature without the attribute is
emitted, and the counters equal the counts the theorem states. -/
theorem C10_mci_filter_witness :
    process_features 2025 [assaultFeature] "auto" = .ok ([], 0, 1) ∧
    (∃ r, process_features 2025 [freshFeature] "auto" = .ok ([r], 0, 0)) ∧
    (1 : ℕ) = [assaultFeature].countP autoDropped ∧
    bikeAssaultOut.2.2 = 0 :=
  ⟨(C10_mci_filter 2025 [] assaultFeature).2.2.1 (by with_unfolding_all decide)
      (by with_unfolding_all decide) (by with_unfolding_all decide),
   (C10_mci_filter 2025 [] freshFeature).2.2.2 (by with_unfolding_all decide)
      (by with_unfolding_all decide) (by with_unfolding_all decide),
   (C10_mci_filter 2025 [assaultFeature] dummyFeature).1 [] 0 1
      (by with_unfolding_all rfl),
   (C10_mci_filter 2025 [assaultFeature] dummyFeature).2.1 bikeAssaultOut.1
      bikeAssaultOut.2.1 bikeAssaultOut.2.2 (by with_unfolding_all rfl)⟩

/-- C2: evaluation of the transform at a feature whose numeric `OCC_MONTH` is
13. `parse_month` passes the numeric value through without clamping, so the
emitted record has `month = 13`, violating `1 ≤ month ≤ 12` (which the
docstring of `parse_month` and the data-model invariant promise). -/
theorem C2_month_not_clamped :
    monthThirteenOutput = [13] ∧
    parse_month (.int 13) = 13 ∧
    ¬ (∀ m ∈ monthThirteenOutput, 1 ≤ m ∧ m ≤ 12) := by
  refine ⟨by with_unfolding_all decide, rfl, ?_⟩
  intro hall
  have := hall 13 (by with_unfolding_all decide)
  omega

/-- C3 (amended): the full fallback chain of `parse_date_string`, in order:
a numeric value strictly above the epoch-plausibility threshold is
interpreted as milliseconds since the epoch and formatted as a date; a string
of length at least 10 yields its first 10 characters verbatim; every other
raw date value - a numeric at or below the threshold (the small/zero sentinel
case), a string shorter than 10 characters, or null - falls through to the
same component synthesis as the null case, which formats the coerced
year/month/day when both coercions succeed and otherwise falls back to
January 1st of the current processing year (the code hard-codes month 01, it
does not keep the current month). -/
theorem C3_date_fallback_chain (nowY : ℤ) (y d : Value) (m : ℤ) (s : String)
    (q : ℚ) (n : ℤ) (yy dd : ℤ) :
    (EPOCH_THRESHOLD < q →
      parse_date_string nowY (.float q) y m d = epochMsToDateStr q) ∧
    (EPOCH_THRESHOLD < (n : ℚ) →
      parse_date_string nowY (.int n) y m d = epochMsToDateStr (n : ℚ)) ∧
    (10 ≤ s.length → parse_date_string nowY (.str s) y m d = s.take 10) ∧
    (q ≤ EPOCH_THRESHOLD →
      parse_date_string nowY (.float q) y m d =
        parse_date_string nowY .null y m d) ∧
    ((n : ℚ) ≤ EPOCH_THRESHOLD →
      parse_date_string nowY (.int n) y m d =
        parse_date_string nowY .null y m d) ∧
    (s.length < 10 →
      parse_date_string nowY (.str s) y m d =
        parse_date_string nowY .null y m d) ∧
    (pyInt y = .ok yy → pyInt d = .ok dd →
      parse_date_string nowY .null y m d = fmtYMD yy m dd) ∧
    ((pyInt y).isOk = false ∨ (pyInt d).isOk = false →
      parse_date_string nowY .null y m d = toString nowY ++ "-01-01") := by
  refine ⟨?_, ?_, ?_, ?_, ?_, ?_, ?_, ?_⟩
  · intro h
    simp [parse_date_string, h]
  · intro h
    simp [parse_date_string, h]
  · intro h
    simp [parse_date_string, h]
  · intro h
    simp [parse_date_string, not_lt.mpr h]
  · intro h
    simp [parse_date_string, not_lt.mpr h]
  · intro h
    simp [parse_date_string, not_le.mpr h]
  · intro hy hd
    simp [parse_date_string, hy, hd]
  · intro h
    rcases h with h | h
    · cases hy : pyInt y with
      | ok v => rw [hy] at h; simp [Except.isOk, Except.toBool] at h
      | error e => simp [parse_date_string, hy]
    · cases hd : pyInt d with
      | ok v => rw [hd] at h; simp [Except.isOk, Except.toBool] at h
      | error e =>
        cases hy : pyInt y with
        | ok v2 => simp [parse_date_string, hy, hd]
        | error e2 => simp [parse_date_string, hy, hd]

/-- Witness for C3: concrete float and int epochs, a concrete long string, a
below-threshold sentinel float, a zero int, a short string and a null (all
falling through to the same component synthesis), and a concrete
non-coercible year. -/
theorem C3_date_fallback_chain_witness :
    EPOCH_THRESHOLD < (1726000000000 : ℚ) ∧
    parse_date_string 2025 (.float 1726000000000) (.int 2024) 9 (.int 15) =
      "2024-09-10" ∧
    parse_date_string 2025 (.int 1726000000000) (.int 2024) 9 (.int 15) =
      "2024-09-10" ∧
    parse_date_string 2025 (.str "2024-09-15T10:00:00") (.int 2024) 9 (.int 15) =
      "2024-09-15" ∧
    parse_date_string 2025 (.float 999) (.int 2024) 9 (.int 15) = "2024-09-15" ∧
    parse_date_string 2025 (.int 0) (.int 2024) 9 (.int 15) = "2024-09-15" ∧
    parse_date_string 2025 (.str "short") (.int 2024) 9 (.int 15) = "2024-09-15" ∧
    parse_date_string 2025 .null (.int 2024) 9 (.int 15) = "2024-09-15" ∧
    parse_date_string 2025 .null (.str "n/a") 1 (.int 1) = "2025-01-01" := by
  refine ⟨by with_unfolding_all decide, ?_, ?_, ?_, ?_, ?_, ?_, ?_, ?_⟩
  · rw [(C3_date_fallback_chain 2025 (.int 2024) (.int 15) 9 "" 1726000000000 0
      0 0).1 (by with_unfolding_all decide)]
    with_unfolding_all decide
  · rw [(C3_date_fallback_chain 2025 (.int 2024) (.int 15) 9 "" 0 1726000000000
      0 0).2.1 (by with_unfolding_all decide)]
    with_unfolding_all decide
  · rw [(C3_date_fallback_chain 2025 (.int 2024) (.int 15) 9
      "2024-09-15T10:00:00" 0 0 0 0).2.2.1 (by decide)]
    with_unfolding_all decide
  · rw [(C3_date_fallback_chain 2025 (.int 2024) (.int 15) 9 "" 999 0 0
      0).2.2.2.1 (by with_unfolding_all decide),
      (C3_date_fallback_chain 2025 (.int 2024) (.int 15) 9 "" 0 0 2024
      15).2.2.2.2.2.2.1 rfl rfl]
    with_unfolding_all decide
  · rw [(C3_date_fallback_chain 2025 (.int 2024) (.int 15) 9 "" 0 0 0
      0).2.2.2.2.1 (by with_unfolding_all decide),
      (C3_date_fallback_chain 2025 (.int 2024) (.int 15) 9 "" 0 0 2024
      15).2.2.2.2.2.2.1 rfl rfl]
    with_unfolding_all decide
  · rw [(C3_date_fallback_chain 2025 (.int 2024) (.int 15) 9 "short" 0 0 0
      0).2.2.2.2.2.1 (by decide),
      (C3_date_fallback_chain 2025 (.int 2024) (.int 15) 9 "" 0 0 2024
      15).2.2.2.2.2.2.1 rfl rfl]
    with_unfolding_all decide
  · rw [(C3_date_fallback_chain 2025 (.int 2024) (.int 15) 9 "" 0 0 2024
      15).2.2.2.2.2.2.1 rfl rfl]
    with_unfolding_all decide
  · rw [(C3_date_fallback_chain 2025 (.str "n/a") (.int 1) 1 "" 0 0 0
      0).2.2.2.2.2.2.2 (Or.inl (by with_unfolding_all decide))]
    with_unfolding_all decide

/-- Counterexample to C3 step (4) as stated: at a processing date in October
2025, the code falls back to "2025-01-01" (January 1st of the current year),
not to the current processing date with day fixed to the 1st, which would be
"2025-10-01". -/
theorem C3_counterexample :
    parse_date_string 2025 .null (.str "n/a") 3 (.int 7) = "2025-01-01" ∧
    specCurrentDateFallback 2025 10 = "2025-10-01" ∧
    parse_date_string 2025 .null (.str "n/a") 3 (.int 7) ≠
      specCurrentDateFallback 2025 10 := by
  refine ⟨?_, ?_, ?_⟩ <;> with_unfolding_all decide

/-- C4 (amended): the pipeline applies no client-side window trimming - a
category's clean records are written exactly as the transform produced them,
whatever their `(year, month)`, and an empty input yields an empty output. -/
theorem C4_no_window_trim (F : String → List RawFeature) (nowY : ℤ) (t : String)
    (recs : List CleanRecord) (ht : t ∈ CATEGORIES)
    (hok : mainPipeline F nowY t = .ok recs) :
    (t ++ "_thefts.json", recs) ∈ (runMain (mainPipeline F nowY)).files ∧
    (F t = [] → recs = []) := by
  constructor
  · have ht2 : t = "auto" ∨ t = "bike" := by simpa [CATEGORIES] using ht
    rcases ht2 with rfl | rfl
    · simp only [runMain, CATEGORIES, List.foldl, mainStep, hok]
      cases h2 : mainPipeline F nowY "bike" <;> simp
    · simp only [runMain, CATEGORIES, List.foldl, mainStep]
      cases h2 : mainPipeline F nowY "auto" <;> simp [hok]
  · intro hF
    have hok2 : transformPipeline nowY [] t = .ok recs := by
      rw [← hF]
      exact hok
    have hempty : transformPipeline nowY [] t = .ok [] := by
      simp [transformPipeline, sortFeatures, sortOk, pySort, process_features, processGo]
    rw [hempty] at hok2
    exact (Except.ok.inj hok2).symm

/-- Witness for C4 on the empty per-category input. -/
theorem C4_no_window_trim_witness :
    ("bike_thefts.json", ([] : List CleanRecord)) ∈
      (runMain (mainPipeline emptyFeaturesOf 2025)).files ∧
    (emptyFeaturesOf "bike" = [] → ([] : List CleanRecord) = []) :=
  C4_no_window_trim emptyFeaturesOf 2025 "bike" [] (by decide)
    (by with_unfolding_all rfl)

/-- Counterexample to C4 as stated: on a concrete input whose freshest record
is from September 2024, the written output also retains a January 2000
record, far outside the six-month trailing window anchored to the freshest
record - no Window Trimmer runs. -/
theorem C4_counterexample :
    transformPipeline 2025 windowInput "bike" = .ok windowOutput ∧
    ¬ specWindowInvariant windowOutput := by
  constructor
  · with_unfolding_all rfl
  · with_unfolding_all decide

/-- C5 (amended): the fetch logic tries exactly two candidates - the date
filter, then once on failure the year filter; no unconditional match-all
candidate exists, and when both candidates fail the category fails with the
second error (to be caught at the category boundary in `main`). -/
theorem C5_candidate_chain (pf : WhereClause → Except String (List RawFeature))
    (t : String) (iso : String) (y : ℤ) :
    ((fetch_features_model pf t iso y).2 = [build_date_where_clause t iso] ∨
     (fetch_features_model pf t iso y).2 =
       [build_date_where_clause t iso, build_year_where_clause t y]) ∧
    WhereClause.matchAll ∉ (fetch_features_model pf t iso y).2 ∧
    (∀ e1 e2, pf (build_date_where_clause t iso) = .error e1 →
      pf (build_year_where_clause t y) = .error e2 →
      (fetch_features_model pf t iso y).1 = .error e2) := by
  simp only [fetch_features_model]
  cases h1 : pf (build_date_where_clause t iso) with
  | ok fs =>
    refine ⟨Or.inl rfl, ?_, ?_⟩
    · simp [build_date_where_clause]
    · intro e1 e2 he1 he2
      exact absurd he1 (by simp)
  | error e =>
    cases h2 : pf (build_year_where_clause t y) with
    | ok fs =>
      refine ⟨Or.inr rfl, ?_, ?_⟩
      · simp [build_date_where_clause, build_year_where_clause]
      · intro e1 e2 he1 he2
        exact absurd he2 (by simp)
    | error e2p =>
      refine ⟨Or.inr rfl, ?_, ?_⟩
      · simp [build_date_where_clause, build_year_where_clause]
      · intro e1 e2 he1 he2
        simp only [Except.error.injEq] at he2
        simp [he2]

/-- Witness for C5 with a page fetch failing on every candidate. -/
theorem C5_candidate_chain_witness :
    WhereClause.matchAll ∉
      (fetch_features_model failingPageFetch "bike" "2025-04-15" 2025).2 ∧
    (fetch_features_model failingPageFetch "bike" "2025-04-15" 2025).1 =
      .error "ArcGIS error 400" :=
  ⟨(C5_candidate_chain failingPageFetch "bike" "2025-04-15" 2025).2.1,
   (C5_candidate_chain failingPageFetch "bike" "2025-04-15" 2025).2.2
     "ArcGIS error 400" "ArcGIS error 400" rfl rfl⟩

/-- Counterexample to C5 as stated: when both candidates fail, the attempted
candidate list is exactly the two filtered clauses - there is no third,
unconditional match-all attempt before the category is given up. -/
theorem C5_counterexample :
    (fetch_features_model failingPageFetch "auto" "2025-04-15" 2025).2 =
      [build_date_where_clause "auto" "2025-04-15",
       build_year_where_clause "auto" 2025] ∧
    (fetch_features_model failingPageFetch "auto" "2025-04-15" 2025).2.length = 2 ∧
    WhereClause.matchAll ∉
      (fetch_features_model failingPageFetch "auto" "2025-04-15" 2025).2 ∧
    (fetch_features_model failingPageFetch "auto" "2025-04-15" 2025).1 =
      .error "ArcGIS error 400" :=
  ⟨by decide, by decide, by decide, rfl⟩

/-- Against the runaway full-page server the pagination loop never finishes
and its accumulation grows by a full page each iteration. -/
theorem fetchSteps_full (n : ℕ) :
    (fetchSteps fullServer n).finished = false ∧
    (fetchSteps fullServer n).offset = n * PAGE_SIZE ∧
    (fetchSteps fullServer n).acc.length = n * PAGE_SIZE := by
  induction n with
  | zero => exact ⟨rfl, rfl, rfl⟩
  | succ n ih =>
    obtain ⟨h1, h2, h3⟩ := ih
    simp only [fetchSteps, fetchStep, h1, fullServer, List.length_replicate,
      Bool.false_eq_true, if_false, List.length_append]
    norm_num [PAGE_SIZE] at h2 h3 ⊢
    omega

/-- C6 (amended): one loop iteration terminates the pagination exactly on an
empty page (accumulating nothing) or on a short page without
`exceededTransferLimit`; there is no record cap - against a server that keeps
returning full pages with `exceededTransferLimit` true, the loop never
finishes and has accumulated `n * PAGE_SIZE` features after `n` iterations,
without bound. -/
theorem C6_pagination (server : ℕ → Page) (s : FetchState) (n : ℕ) :
    (s.finished = false → (server s.offset).features = [] →
      (fetchStep server s).finished = true ∧ (fetchStep server s).acc = s.acc) ∧
    (s.finished = false → (server s.offset).features ≠ [] →
      (server s.offset).exceededTransferLimit = false →
      (server s.offset).features.length < PAGE_SIZE →
      (fetchStep server s).finished = true) ∧
    ((fetchSteps fullServer n).finished = false ∧
     (fetchSteps fullServer n).acc.length = n * PAGE_SIZE) := by
  refine ⟨?_, ?_, (fetchSteps_full n).1, (fetchSteps_full n).2.2⟩
  · intro h1 h2
    simp [fetchStep, h1, h2]
  · intro h1 h2 h3 h4
    have h5 : (server s.offset).features.length ≠ 0 := by
      simpa using h2
    simp only [fetchStep, h1, Bool.false_eq_true, if_false, if_neg h5]
    rw [if_pos ⟨h3, h4⟩]

/-- Witness for C6: the empty-page and short-page terminations at concrete
servers and the unbounded accumulation at two iterations. -/
theorem C6_pagination_witness :
    (fetchStep emptyPageServer ⟨[], 0, false⟩).finished = true ∧
    (fetchStep shortPageServer ⟨[], 0, false⟩).finished = true ∧
    (fetchSteps fullServer 2).acc.length = 2 * PAGE_SIZE :=
  ⟨((C6_pagination emptyPageServer ⟨[], 0, false⟩ 0).1 rfl rfl).1,
   (C6_pagination shortPageServer ⟨[], 0, false⟩ 0).2.1 rfl (by decide) rfl
     (by decide),
   (C6_pagination fullServer ⟨[], 0, false⟩ 2).2.2.2⟩

/-- Counterexample to C6 as stated: after five and six iterations against the
runaway server the loop is still running with 10000 and 12000 accumulated
features - no hard safety cap stops it. -/
theorem C6_counterexample :
    (fetchSteps fullServer 6).finished = false ∧
    (fetchSteps fullServer 6).acc.length = 12000 ∧
    (fetchSteps fullServer 5).acc.length = 10000 := by
  obtain ⟨h1, -, h3⟩ := fetchSteps_full 6
  obtain ⟨-, -, h6⟩ := fetchSteps_full 5
  refine ⟨h1, ?_, ?_⟩
  · rw [h3]; norm_num [PAGE_SIZE]
  · rw [h6]; norm_num [PAGE_SIZE]

/-- The key comparison is transitive. -/
theorem sortLe_trans (a b c : RawFeature) (h1 : sortLe a b = true)
    (h2 : sortLe b c = true) : sortLe a c = true := by
  simp only [sortLe, decide_eq_true_eq] at *
  exact le_trans h1 h2

/-- The key comparison is total. -/
theorem sortLe_total (a b : RawFeature) : (sortLe a b || sortLe b a) = true := by
  simp only [sortLe, Bool.or_eq_true, decide_eq_true_eq]
  exact le_total _ _

/-- C8: on any input whose sort keys all evaluate, the client-side sort is a
fixpoint on already-sorted input, idempotent, and stable - records with the
same sort key keep their original relative order (sorting commutes with
filtering to any fixed key value). -/
theorem C8_sort_properties (l : List RawFeature) (h : sortOk l = true) :
    (List.Pairwise (fun a b => sortLe a b = true) l → pySort l = l) ∧
    pySort (pySort l) = pySort l ∧
    ∀ k : ℚ, (pySort l).filter (fun f => keyD f == k) =
      l.filter (fun f => keyD f == k) := by
  refine ⟨fun hp => List.mergeSort_of_sorted hp, ?_, ?_⟩
  · simp only [pySort]
    exact List.mergeSort_of_sorted (List.sorted_mergeSort sortLe_trans sortLe_total l)
  · intro k
    have hfilt : (l.filter fun f => keyD f == k).Pairwise
        (fun a b => sortLe a b = true) := by
      apply List.pairwise_of_forall_mem_list
      intro a ha b hb
      have hak : keyD a = k := by simpa using (List.mem_filter.mp ha).2
      have hbk : keyD b = k := by simpa using (List.mem_filter.mp hb).2
      simp [sortLe, hak, hbk]
    have hsub : List.Sublist (l.filter fun f => keyD f == k) (pySort l) :=
      List.sublist_mergeSort sortLe_trans sortLe_total hfilt (List.filter_sublist l)
    have hself : ((l.filter fun f => keyD f == k).filter fun f => keyD f == k) =
        l.filter fun f => keyD f == k :=
      List.filter_eq_self.mpr (fun a ha => (List.mem_filter.mp ha).2)
    have hsub2 : List.Sublist (l.filter fun f => keyD f == k)
        ((pySort l).filter fun f => keyD f == k) := by
      have hstep := List.Sublist.filter (fun f => keyD f == k) hsub
      rwa [hself] at hstep
    have hperm : List.Perm ((pySort l).filter fun f => keyD f == k)
        (l.filter fun f => keyD f == k) :=
      List.Perm.filter _ (List.mergeSort_perm l sortLe)
    exact (hsub2.eq_of_length hperm.length_eq.symm).symm

/-- Witness for C8 on a concrete list containing a tied pair of features and
on a concrete already-sorted list. -/
theorem C8_sort_properties_witness :
    sortOk c8List = true ∧
    pySort (pySort c8List) = pySort c8List ∧
    (pySort c8List).filter (fun f => keyD f == tieKey) =
      c8List.filter (fun f => keyD f == tieKey) ∧
    pySort c8Sorted = c8Sorted :=
  ⟨by with_unfolding_all decide,
   (C8_sort_properties c8List (by with_unfolding_all decide)).2.1,
   (C8_sort_properties c8List (by with_unfolding_all decide)).2.2 tieKey,
   (C8_sort_properties c8Sorted (by with_unfolding_all decide)).1
     (by with_unfolding_all decide)⟩

/-- C9: when every category's pipeline raises, `main` still writes one file
per category, each containing an empty record array, and exits with status 1
because the total record count is zero; no exception escapes a category. -/
theorem C9_all_categories_fail
    (pipeline : String → Except String (List CleanRecord))
    (h1 : ∃ e, pipeline "auto" = .error e)
    (h2 : ∃ e, pipeline "bike" = .error e) :
    runMain pipeline =
      ⟨[("auto_thefts.json", []), ("bike_thefts.json", [])], 0, 1⟩ := by
  obtain ⟨e1, h1⟩ := h1
  obtain ⟨e2, h2⟩ := h2
  simp [runMain, CATEGORIES, mainStep, h1, h2]

/-- Witness for C9 with a concrete failing pipeline. -/
theorem C9_all_categories_fail_witness :
    runMain failingPipeline =
      ⟨[("auto_thefts.json", []), ("bike_thefts.json", [])], 0, 1⟩ :=
  C9_all_categories_fail failingPipeline ⟨"unexpected", rfl⟩ ⟨"unexpected", rfl⟩
